import Mathlib

/-!
Verification development for the TelecomSoc threat-analysis server.

The definitions below are a shallow embedding of the decision logic of
`server/services/gemini.ts`, `server/services/threatAnalysis.ts`,
`server/services/anomalyDetection.ts` and the in-memory store of
`server/storage.ts`.  Numeric scores are modelled as rationals, JavaScript
`Math.random()` draws are explicit parameters ranging over `[0, 1)`, promises
that may reject are modelled with `Except`, and the mutable `MemStorage` maps
are modelled as explicit state records threaded through each operation.
Wall-clock timestamps and the opaque `rawData` / `geminiAnalysis` JSON blobs
stored on a threat are not modelled: no verified property mentions them.
-/

namespace TelecomSoc

/-! ### String helpers (JavaScript `toLowerCase` / `includes` / `replace`) -/

/-- Whether the second character list stands at the head of the first. -/
def startsWithChars : List Char → List Char → Bool
  | _, [] => true
  | [], _ :: _ => false
  | c :: cs, p :: ps => c = p && startsWithChars cs ps

/-- Whether the second character list occurs contiguously inside the first
(JavaScript `String.prototype.includes`). -/
def containsChars : List Char → List Char → Bool
  | [], pat => startsWithChars [] pat
  | c :: cs, pat => startsWithChars (c :: cs) pat || containsChars cs pat

/-- JavaScript `s.toLowerCase().includes(pat)` for an already-lowercase
pattern. -/
def lowerIncludes (s pat : String) : Bool :=
  containsChars (s.toList.map Char.toLower) pat.toList

/-- JavaScript `threatType.replace(/_/g, ' ')`. -/
def underscoresToSpaces (s : String) : String :=
  String.mk (s.toList.map (fun c => if c = '_' then ' ' else c))

/-- JavaScript `location.replace(/\s+/g, '_')`, modelled character by
character (a run of blanks becomes a run of underscores rather than one;
no verified property depends on the identifier strings). -/
def spacesToUnderscores (s : String) : String :=
  String.mk (s.toList.map (fun c => if c = ' ' then '_' else c))

/-- JavaScript `a || b` on strings: the empty string is falsy. -/
def jsOrString (a b : String) : String :=
  if a = "" then b else a

/-! ### gemini.ts — the Score Provider -/

/-- The `ThreatAnalysis` interface of gemini.ts (lines 5–12). -/
structure ThreatAnalysis where
  threatScore : ℚ
  threatType : String
  severity : String
  confidence : ℚ
  description : String
  recommendations : List String
deriving DecidableEq

/-- The fields of the untyped `data` argument that
`generateFallbackAnalysis` reads (`data.message`, `data.duration`,
`data.activities`, `data.source`); `none` models an absent (undefined)
field. -/
structure FallbackData where
  message : Option String
  duration : Option ℚ
  activities : Option (List String)
  source : Option String
deriving DecidableEq

/-- Embedding of `generateFallbackAnalysis` (gemini.ts lines 70–115).  The
`Math.random()` draws are the parameters `r0` (the initial score draw), `r1`
(the draw of the branch that re-assigns the score) and `rc` (the confidence
draw), each ranging over `[0, 1)`. -/
def generateFallbackAnalysis (data : FallbackData) (analysisType : String)
    (r0 r1 rc : ℚ) : ThreatAnalysis :=
  let base : ℚ × String × String := (r0 * 10, "low", "anomalous_traffic")
  let branched : ℚ × String × String :=
    if analysisType = "sms" then
      let message := data.message.getD ""
      if lowerIncludes message "click" || lowerIncludes message "urgent" then
        (7 + r1 * 3, "high", "sms_phishing")
      else base
    else if analysisType = "cdr" then
      let duration := data.duration.getD 0
      if duration > 3600 ∨ duration < 5 then
        (6 + r1 * 2, "medium", "call_fraud")
      else base
    else if analysisType = "user_behavior" then
      let activities := data.activities.getD []
      if activities.length > 50 then
        (8 + r1 * 2, "high", "sim_swap")
      else base
    else base
  let threatScore := branched.1
  let threatType := branched.2.2
  let severity :=
    if threatScore > 8 then "critical"
    else if threatScore > 6 then "high"
    else if threatScore > 4 then "medium"
    else branched.2.1
  { threatScore := threatScore
    threatType := threatType
    severity := severity
    confidence := 0.7 + rc * 0.3
    description :=
      "Detected " ++ severity ++ " level " ++ underscoresToSpaces threatType
        ++ " threat"
    recommendations :=
      ["Monitor " ++ data.source.getD "source" ++ " closely",
       "Consider " ++ (if severity = "critical" then "immediate" else "standard")
         ++ " response actions",
       "Log incident for compliance reporting"] }

/-- What the external inference call inside `analyzeThreatData` can come to:
a thrown transport or JSON-parse error, an empty `response.text`, or a parsed
`ThreatAnalysis`. -/
inductive GeminiOutcome
  | throwErr
  | emptyBody
  | parsed (a : ThreatAnalysis)
deriving DecidableEq

/-- The try-block of `analyzeThreatData` (gemini.ts lines 14–50): the
fallback is computed first; when `useGemini` holds (the `Math.random() < 0.1`
sample) the external service is invoked, its thrown errors escape the block,
an empty body falls through to the fallback, and a parsed body is returned
as is. -/
def analyzeThreatDataTry (useGemini : Bool) (svc : GeminiOutcome)
    (data : FallbackData) (analysisType : String) (r0 r1 rc : ℚ) :
    Except Unit ThreatAnalysis :=
  let fallbackAnalysis := generateFallbackAnalysis data analysisType r0 r1 rc
  if useGemini then
    match svc with
    | .throwErr => .error ()
    | .emptyBody => .ok fallbackAnalysis
    | .parsed a => .ok a
  else .ok fallbackAnalysis

/-- `analyzeThreatData` as its caller sees it (gemini.ts lines 14–55): the
catch handler logs the error and returns a freshly drawn fallback analysis
(`s0 s1 sc` are the catch path's own `Math.random()` draws), so the promise
always resolves with a `ThreatAnalysis`. -/
def analyzeThreatData (useGemini : Bool) (svc : GeminiOutcome)
    (data : FallbackData) (analysisType : String) (r0 r1 rc s0 s1 sc : ℚ) :
    Except Unit ThreatAnalysis :=
  match analyzeThreatDataTry useGemini svc data analysisType r0 r1 rc with
  | .ok a => .ok a
  | .error _ => .ok (generateFallbackAnalysis data analysisType s0 s1 sc)

/-! ### shared schema and storage.ts — the in-memory store -/

/-- A system-configuration value: the policy flags are booleans, the
sensitivity knobs are numbers.  JavaScript truthiness of a number is
`n ≠ 0`. -/
inductive ConfigVal
  | bool (b : Bool)
  | num (n : ℚ)
deriving DecidableEq

/-- One row of the `system_config` table. -/
structure SystemConfig where
  id : Nat
  configKey : String
  configValue : ConfigVal
deriving DecidableEq

/-- JavaScript truthiness of `row?.configValue` for an optional config row. -/
def truthyCfg : Option SystemConfig → Bool
  | none => false
  | some c =>
    match c.configValue with
    | .bool b => b
    | .num n => decide (n ≠ 0)

/-- A persisted threat (the `threats` table, keyed fields only). -/
structure Threat where
  id : Nat
  threatType : String
  source : String
  severity : String
  aiScore : ℚ
  status : String
  description : String
deriving DecidableEq

/-- The `InsertThreat` shape handed to `storage.createThreat`. -/
structure InsertThreat where
  threatType : String
  source : String
  severity : String
  aiScore : ℚ
  status : String
  description : String
deriving DecidableEq

/-- A persisted action (the `actions` table). -/
structure Action where
  id : Nat
  threatId : Option Nat
  actionType : String
  automated : Bool
  details : String
deriving DecidableEq

/-- A persisted fraud case (the `fraud_cases` table). -/
structure FraudCase where
  id : Nat
  userId : String
  riskScore : ℚ
  status : String
deriving DecidableEq

/-- The state of `MemStorage` (storage.ts): the four maps this development
needs, in insertion order, plus the shared `currentId` counter. -/
structure MemStorage where
  threats : List Threat
  actions : List Action
  fraudCases : List FraudCase
  systemConfig : List SystemConfig
  currentId : Nat
deriving DecidableEq

/-- `MemStorage.createThreat`: assigns `currentId` as the id, bumps the
counter, stores the threat. -/
def createThreat (st : MemStorage) (ins : InsertThreat) : Threat × MemStorage :=
  let t : Threat :=
    { id := st.currentId, threatType := ins.threatType, source := ins.source,
      severity := ins.severity, aiScore := ins.aiScore, status := ins.status,
      description := ins.description }
  (t, { st with threats := st.threats ++ [t], currentId := st.currentId + 1 })

/-- `MemStorage.createAction`. -/
def createAction (st : MemStorage) (threatId : Option Nat) (actionType : String)
    (automated : Bool) (details : String) : Action × MemStorage :=
  let a : Action :=
    { id := st.currentId, threatId := threatId, actionType := actionType,
      automated := automated, details := details }
  (a, { st with actions := st.actions ++ [a], currentId := st.currentId + 1 })

/-- `MemStorage.createFraudCase`. -/
def createFraudCase (st : MemStorage) (userId : String) (riskScore : ℚ)
    (status : String) : FraudCase × MemStorage :=
  let fc : FraudCase :=
    { id := st.currentId, userId := userId, riskScore := riskScore,
      status := status }
  (fc, { st with fraudCases := st.fraudCases ++ [fc],
                 currentId := st.currentId + 1 })

/-- `MemStorage.updateThreatStatus`: mutates the stored threat in place when
the id is present, otherwise does nothing. -/
def updateThreatStatus (st : MemStorage) (id : Nat) (status : String) :
    MemStorage :=
  { st with threats :=
      st.threats.map (fun t => if t.id = id then { t with status := status } else t) }

/-- `MemStorage.getSystemConfig`. -/
def getSystemConfig (st : MemStorage) (key : String) : Option SystemConfig :=
  st.systemConfig.find? (fun c => c.configKey = key)

/-- `MemStorage.getThreatById`. -/
def getThreatById (st : MemStorage) (id : Nat) : Option Threat :=
  st.threats.find? (fun t => t.id = id)

/-- The rows written by the constructor's config initialisation
(storage.ts lines 90–109). -/
def initialSystemConfig : List SystemConfig :=
  [⟨1, "sms_sensitivity", .num 80⟩,
   ⟨2, "call_sensitivity", .num 60⟩,
   ⟨3, "fraud_sensitivity", .num 85⟩,
   ⟨4, "auto_block_critical", .bool true⟩,
   ⟨5, "auto_block_fraud", .bool true⟩,
   ⟨6, "sim_swap_manual", .bool false⟩]

/-- A freshly constructed `MemStorage`. -/
def emptyMemStorage : MemStorage :=
  { threats := [], actions := [], fraudCases := [],
    systemConfig := initialSystemConfig, currentId := 1 }

/-! ### threatAnalysis.ts — classifier, policy engine and entry points -/

/-- `ThreatAnalysisService.scoresToSeverity` (threatAnalysis.ts lines
117–122). -/
def scoresToSeverity (score : ℚ) : String :=
  if score ≥ 8.5 then "critical"
  else if score ≥ 7 then "high"
  else if score ≥ 5 then "medium"
  else "low"

/-- The `shouldAutoBlock` / `actionType` computation of
`handleAutoResponse` (threatAnalysis.ts lines 126–142): `none` means no
automated action. -/
def autoResponseDecision (st : MemStorage) (threat : Threat) : Option String :=
  let autoBlockCritical := getSystemConfig st "auto_block_critical"
  let autoBlockFraud := getSystemConfig st "auto_block_fraud"
  let simSwapManual := getSystemConfig st "sim_swap_manual"
  if threat.severity = "critical" ∧ truthyCfg autoBlockCritical = true then
    some (if threat.threatType = "sms_phishing" then "block_phone" else "block_ip")
  else if threat.threatType = "call_fraud" ∧ truthyCfg autoBlockFraud = true then
    some "block_phone"
  else if threat.threatType = "sim_swap" ∧ truthyCfg simSwapManual = false then
    some "create_case"
  else none

/-- Which storage writes an execution is made to fail, so that the
error-handling of the pipeline can be stated over every failure pattern. -/
structure FailSpec where
  failCreateThreat : Bool
  failCreateAction : Bool
  failCreateFraudCase : Bool
  failUpdateThreatStatus : Bool
deriving DecidableEq

/-- The execution in which every storage write succeeds (the behaviour of
`MemStorage`, whose operations never throw). -/
def noFail : FailSpec :=
  { failCreateThreat := false, failCreateAction := false,
    failCreateFraudCase := false, failUpdateThreatStatus := false }

/-- An error raised inside a pipeline body before its catch handler. -/
inductive PipelineErr
  | scoringRejected
  | storageFailure (op : String)
deriving DecidableEq

/-- `handleAutoResponse` (threatAnalysis.ts lines 124–155) with failure
injection: on a rule match it creates one automated action and then updates
the threat's status to `blocked`; a failing write stops the body there,
keeping the writes already made. -/
def handleAutoResponseF (fs : FailSpec) (threat : Threat) (st : MemStorage) :
    MemStorage × Option PipelineErr :=
  match autoResponseDecision st threat with
  | none => (st, none)
  | some actionType =>
    if fs.failCreateAction then (st, some (.storageFailure "createAction")) else
    let (_, st1) := createAction st (some threat.id) actionType true
      ("Auto-blocked " ++ threat.source ++ " due to " ++ threat.threatType
        ++ " with score " ++ toString threat.aiScore)
    if fs.failUpdateThreatStatus then
      (st1, some (.storageFailure "updateThreatStatus"))
    else (updateThreatStatus st1 threat.id "blocked", none)

/-- `handleAutoResponse` in the failure-free execution. -/
def handleAutoResponse (threat : Threat) (st : MemStorage) : MemStorage :=
  (handleAutoResponseF noFail threat st).1

/-- The `CDRRecord` interface (threatAnalysis.ts lines 5–14), without the
timestamp. -/
structure CDRRecord where
  callId : String
  fromNumber : String
  toNumber : String
  duration : ℚ
  callType : String
  location : Option String
  imei : Option String
deriving DecidableEq

/-- The `SMSRecord` interface (threatAnalysis.ts lines 16–23), without the
timestamp. -/
structure SMSRecord where
  messageId : String
  fromNumber : String
  toNumber : String
  message : String
  messageType : String
deriving DecidableEq

/-- The `InsertThreat` built by `analyzeCDRRecord` (threatAnalysis.ts lines
31–40): `analysis.threatType || 'call_fraud'`. -/
def mkCDRInsert (analysis : ThreatAnalysis) (cdr : CDRRecord) : InsertThreat :=
  { threatType := jsOrString analysis.threatType "call_fraud",
    source := cdr.fromNumber,
    severity := scoresToSeverity analysis.threatScore,
    aiScore := analysis.threatScore,
    status := "analyzing",
    description := analysis.description }

/-- The `InsertThreat` built by `analyzeSMSRecord` (threatAnalysis.ts lines
56–66): `analysis.threatType || 'sms_phishing'`. -/
def mkSMSInsert (analysis : ThreatAnalysis) (sms : SMSRecord) : InsertThreat :=
  { threatType := jsOrString analysis.threatType "sms_phishing",
    source := sms.fromNumber,
    severity := scoresToSeverity analysis.threatScore,
    aiScore := analysis.threatScore,
    status := "analyzing",
    description := analysis.description }

/-- The `InsertThreat` built by `analyzeUserBehavior` (threatAnalysis.ts
lines 97–107). -/
def mkBehaviorInsert (analysis : ThreatAnalysis) (userId : String) :
    InsertThreat :=
  { threatType := "sim_swap",
    source := "User: " ++ userId,
    severity := scoresToSeverity analysis.threatScore,
    aiScore := analysis.threatScore,
    status := "analyzing",
    description := analysis.description }

/-- The try-block of `analyzeCDRRecord` (threatAnalysis.ts lines 26–50).
`scoring` is the settled `analyzeThreatData` promise. -/
def analyzeCDRRecordBody (fs : FailSpec) (scoring : Except Unit ThreatAnalysis)
    (cdr : CDRRecord) (st : MemStorage) : MemStorage × Option PipelineErr :=
  match scoring with
  | .error _ => (st, some .scoringRejected)
  | .ok analysis =>
    if analysis.threatScore > 5 then
      if fs.failCreateThreat then (st, some (.storageFailure "createThreat")) else
      let (createdThreat, st1) := createThreat st (mkCDRInsert analysis cdr)
      handleAutoResponseF fs createdThreat st1
    else (st, none)

/-- The try-block of `analyzeSMSRecord` (threatAnalysis.ts lines 52–76). -/
def analyzeSMSRecordBody (fs : FailSpec) (scoring : Except Unit ThreatAnalysis)
    (sms : SMSRecord) (st : MemStorage) : MemStorage × Option PipelineErr :=
  match scoring with
  | .error _ => (st, some .scoringRejected)
  | .ok analysis =>
    if analysis.threatScore > 5 then
      if fs.failCreateThreat then (st, some (.storageFailure "createThreat")) else
      let (createdThreat, st1) := createThreat st (mkSMSInsert analysis sms)
      handleAutoResponseF fs createdThreat st1
    else (st, none)

/-- The try-block of `analyzeUserBehavior` (threatAnalysis.ts lines 78–115):
threshold `> 6`, a fraud case first, then the threat and the auto
response. -/
def analyzeUserBehaviorBody (fs : FailSpec)
    (scoring : Except Unit ThreatAnalysis) (userId : String)
    (st : MemStorage) : MemStorage × Option PipelineErr :=
  match scoring with
  | .error _ => (st, some .scoringRejected)
  | .ok analysis =>
    if analysis.threatScore > 6 then
      if fs.failCreateFraudCase then
        (st, some (.storageFailure "createFraudCase"))
      else
      let (_, st1) := createFraudCase st userId analysis.threatScore
        "investigating"
      if fs.failCreateThreat then (st1, some (.storageFailure "createThreat")) else
      let (createdThreat, st2) := createThreat st1 (mkBehaviorInsert analysis userId)
      handleAutoResponseF fs createdThreat st2
    else (st, none)

/-- The catch handler every entry point wraps its body in: the error is
logged (`console.error`) and dropped, the state reached so far stands, and
the promise resolves. -/
def catchAll (body : MemStorage × Option PipelineErr) :
    MemStorage × Except PipelineErr Unit :=
  match body with
  | (st, some _) => (st, Except.ok ())
  | (st, none) => (st, Except.ok ())

/-- `analyzeCDRRecord` as its caller awaits it. -/
def analyzeCDRRecord (fs : FailSpec) (scoring : Except Unit ThreatAnalysis)
    (cdr : CDRRecord) (st : MemStorage) : MemStorage × Except PipelineErr Unit :=
  catchAll (analyzeCDRRecordBody fs scoring cdr st)

/-- `analyzeSMSRecord` as its caller awaits it. -/
def analyzeSMSRecord (fs : FailSpec) (scoring : Except Unit ThreatAnalysis)
    (sms : SMSRecord) (st : MemStorage) : MemStorage × Except PipelineErr Unit :=
  catchAll (analyzeSMSRecordBody fs scoring sms st)

/-- `analyzeUserBehavior` as its caller awaits it. -/
def analyzeUserBehavior (fs : FailSpec) (scoring : Except Unit ThreatAnalysis)
    (userId : String) (st : MemStorage) : MemStorage × Except PipelineErr Unit :=
  catchAll (analyzeUserBehaviorBody fs scoring userId st)

/-! ### anomalyDetection.ts — the statistical outlier detector

The source compares `Math.abs(x - mean)` against multiples of
`stdDev = Math.sqrt(variance)` and reports `min(10, |x - mean| / stdDev)` as
a score.  To keep every definition executable over the rationals, those
comparisons are embedded in squared form (`(x - mean)^2 > 4 * variance` for
`|x - mean| > 2σ`, and so on) and the score is carried squared in the field
`scoreSq`.  The lemmas `sq_gt_iff_abs_gt_sqrt_mul` and `min_ten_sq` prove
the squared forms equivalent to the source's real-valued ones. -/

/-- One row of the `telecom_user_activity_log` table, the fields
`getStatisticalAnomalies` reads plus the fraud flag. -/
structure TelecomActivity where
  id : Nat
  userId : String
  activityType : String
  durationSec : ℚ
  location : String
  peerNumber : String
  timestamp : Nat
  isSpamOrFraud : Bool
deriving DecidableEq

/-- The `AnomalyResult` interface (anomalyDetection.ts lines 4–15), with the
score carried squared (see the section comment) and the structured `details`
object dropped (no verified property mentions it). -/
structure Anomaly where
  id : String
  timestamp : Nat
  anomalyType : String
  severity : String
  scoreSq : ℚ
  description : String
  affectedMetrics : List String
  confidence : ℚ
  source : String
deriving DecidableEq

/-- The `callDurations` array (anomalyDetection.ts lines 157–159): durations
of call-type records with positive duration. -/
def callDurations (activities : List TelecomActivity) : List ℚ :=
  (activities.filter
      (fun a => a.activityType = "call" && decide (a.durationSec > 0))).map
    (fun a => a.durationSec)

/-- Arithmetic mean with the convention `[] ↦ 0` (the source guards the
empty case). -/
def meanOf (l : List ℚ) : ℚ := l.sum / l.length

/-- Population variance, `stdDev²` of the source. -/
def varianceOf (l : List ℚ) : ℚ :=
  (l.map (fun v => (v - meanOf l) ^ 2)).sum / l.length

/-- The record built for one flagged duration outlier (anomalyDetection.ts
lines 173–190). -/
def mkDurationAnomaly (mean variance : ℚ) (p : Nat × TelecomActivity) :
    Anomaly :=
  { id := "stat_call_" ++ toString p.2.id ++ "_" ++ toString p.1,
    timestamp := p.2.timestamp,
    anomalyType := "call_duration_outlier",
    severity :=
      if (p.2.durationSec - mean) ^ 2 > 9 * variance then "high" else "medium",
    scoreSq :=
      if variance = 0 then 100
      else min 100 ((p.2.durationSec - mean) ^ 2 / variance),
    description :=
      "Unusual call duration: " ++ toString p.2.durationSec ++ "s (avg: "
        ++ toString mean ++ "s)",
    affectedMetrics := ["call_duration"],
    confidence := 0.85,
    source := "user_" ++ p.2.userId }

/-- The outlier condition of anomalyDetection.ts lines 168–171: a call-type
record whose duration deviates from the batch mean by more than two
population standard deviations (in squared form). -/
def durationFlag (activities : List TelecomActivity) (a : TelecomActivity) :
    Bool :=
  a.activityType = "call"
    && decide ((a.durationSec - meanOf (callDurations activities)) ^ 2
        > 4 * varianceOf (callDurations activities))

/-- The call-duration pass of `getStatisticalAnomalies` (anomalyDetection.ts
lines 156–191): every call-type record more than two population standard
deviations from the mean is reported, in input order, with no cap. -/
def durationOutlierPass (activities : List TelecomActivity) : List Anomaly :=
  if (callDurations activities).length > 0 then
    (activities.filter (durationFlag activities)).enum.map
      (mkDurationAnomaly (meanOf (callDurations activities))
        (varianceOf (callDurations activities)))
  else []

/-- Distinct keys in first-insertion order, as a JavaScript object built by
`reduce` enumerates them. -/
def uniqueKeys : List String → List String
  | [] => []
  | x :: xs => x :: uniqueKeys (xs.filter (fun y => y ≠ x))
termination_by l => l.length
decreasing_by
  simp only [List.length_cons]
  exact Nat.lt_succ_of_le (List.length_filter_le _ _)

/-- The record built for one location spike (anomalyDetection.ts lines
205–220). -/
def mkLocationAnomaly (now : Nat) (avgFreq : ℚ) (p : String × Nat) : Anomaly :=
  { id := "stat_location_" ++ spacesToUnderscores p.1,
    timestamp := now,
    anomalyType := "location_activity_spike",
    severity := if (p.2 : ℚ) > avgFreq * 5 then "critical" else "high",
    scoreSq := min 100 (((p.2 : ℚ) / avgFreq) ^ 2),
    description := "Unusual activity spike in " ++ p.1 ++ ": "
      ++ toString p.2 ++ " activities",
    affectedMetrics := ["location_frequency"],
    confidence := 0.75,
    source := p.1 }

/-- The `locationCounts` object (anomalyDetection.ts lines 194–197):
per-location activity counts in first-insertion order. -/
def locationCounts (activities : List TelecomActivity) :
    List (String × Nat) :=
  (uniqueKeys (activities.map (fun a => a.location))).map
    (fun loc => (loc, (activities.filter (fun a => a.location = loc)).length))

/-- The `avgFreq` of the location pass. -/
def avgLocationFreq (activities : List TelecomActivity) : ℚ :=
  ((locationCounts activities).map (fun p => (p.2 : ℚ))).sum
    / (locationCounts activities).length

/-- The location-frequency pass of `getStatisticalAnomalies`
(anomalyDetection.ts lines 193–223): runs only on more than five distinct
locations, flagging counts above three times the average. -/
def locationPass (now : Nat) (activities : List TelecomActivity) :
    List Anomaly :=
  if (locationCounts activities).length > 5 then
    ((locationCounts activities).filter
        (fun p => decide ((p.2 : ℚ) > avgLocationFreq activities * 3))).map
      (mkLocationAnomaly now (avgLocationFreq activities))
  else []

/-- `AnomalyDetectionService.getStatisticalAnomalies` (anomalyDetection.ts
lines 147–231) over an explicit batch (the source reads up to 1000 recent
rows from storage): below 50 records it returns the empty sequence,
otherwise the duration pass followed by the location pass. -/
def getStatisticalAnomalies (now : Nat) (activities : List TelecomActivity) :
    List Anomaly :=
  if activities.length < 50 then []
  else durationOutlierPass activities ++ locationPass now activities

/-! ### Supporting lemmas -/

/-- `catchAll` returns the body's state unchanged. -/
theorem catchAll_fst (p : MemStorage × Option PipelineErr) :
    (catchAll p).1 = p.1 := by
  obtain ⟨a, b⟩ := p
  cases b <;> rfl

/-- `catchAll` always resolves: the caller of an entry point never sees a
rejection. -/
theorem catchAll_snd (p : MemStorage × Option PipelineErr) :
    (catchAll p).2 = Except.ok () := by
  obtain ⟨a, b⟩ := p
  cases b <;> rfl

/-- The auto-response handler rewrites the stored threats pointwise, and the
rewriting touches only the `status` field. -/
theorem handleAutoResponseF_threats (fs : FailSpec) (t : Threat)
    (st : MemStorage) :
    ∃ g : Threat → Threat,
      ((handleAutoResponseF fs t st).1).threats = st.threats.map g
        ∧ ∀ x, (g x).severity = x.severity ∧ (g x).aiScore = x.aiScore
            ∧ (g x).threatType = x.threatType ∧ (g x).id = x.id := by
  unfold handleAutoResponseF
  cases hd : autoResponseDecision st t with
  | none => exact ⟨id, (List.map_id _).symm, fun x => ⟨rfl, rfl, rfl, rfl⟩⟩
  | some aty =>
    by_cases h1 : fs.failCreateAction
    · simp only [h1, if_true]
      exact ⟨id, (List.map_id _).symm, fun x => ⟨rfl, rfl, rfl, rfl⟩⟩
    · by_cases h2 : fs.failUpdateThreatStatus
      · simp only [h1, h2, if_false, if_true, createAction]
        exact ⟨id, (List.map_id _).symm, fun x => ⟨rfl, rfl, rfl, rfl⟩⟩
      · simp only [h1, h2, if_false, createAction, updateThreatStatus]
        refine ⟨fun x => if x.id = t.id then { x with status := "blocked" } else x,
          rfl, fun x => ?_⟩
        by_cases hx : x.id = t.id <;> simp [hx]

/-- The auto-response handler keeps the number of stored threats. -/
theorem handleAutoResponseF_threats_length (fs : FailSpec) (t : Threat)
    (st : MemStorage) :
    ((handleAutoResponseF fs t st).1).threats.length = st.threats.length := by
  obtain ⟨g, hg, -⟩ := handleAutoResponseF_threats fs t st
  rw [hg, List.length_map]

/-- The auto-response handler never touches the configuration rows. -/
theorem handleAutoResponseF_systemConfig (fs : FailSpec) (t : Threat)
    (st : MemStorage) :
    ((handleAutoResponseF fs t st).1).systemConfig = st.systemConfig := by
  unfold handleAutoResponseF
  cases hd : autoResponseDecision st t with
  | none => rfl
  | some aty =>
    by_cases h1 : fs.failCreateAction
    · simp [h1]
    · by_cases h2 : fs.failUpdateThreatStatus <;>
        simp [h1, h2, createAction, updateThreatStatus]

/-- The auto-response decision reads only the configuration rows and the
threat it is given. -/
theorem autoResponseDecision_congr {st1 st2 : MemStorage} (t : Threat)
    (h : st1.systemConfig = st2.systemConfig) :
    autoResponseDecision st1 t = autoResponseDecision st2 t := by
  unfold autoResponseDecision getSystemConfig
  rw [h]

/-- The failure-free execution injects no `createThreat` failure. -/
theorem noFail_failCreateThreat : noFail.failCreateThreat = false := rfl

/-- The failure-free execution injects no `createFraudCase` failure. -/
theorem noFail_failCreateFraudCase : noFail.failCreateFraudCase = false := rfl

/-! ### C1 — threat-creation thresholds -/

/-- C1 (amended): a CDR or SMS event creates exactly one Threat when its
score is strictly above 5.0 and none otherwise, while a user-behavior event
creates a Threat exactly when its score is strictly above 6.0; an event at
or below its path's threshold leaves the store completely unchanged (no
Threat, no Action, no fraud case). -/
theorem c1_threat_creation_thresholds (analysis : ThreatAnalysis)
    (cdr : CDRRecord) (sms : SMSRecord) (userId : String) (st : MemStorage) :
    (((analyzeCDRRecord noFail (.ok analysis) cdr st).1).threats.length
        = st.threats.length + (if analysis.threatScore > 5 then 1 else 0))
    ∧ (((analyzeSMSRecord noFail (.ok analysis) sms st).1).threats.length
        = st.threats.length + (if analysis.threatScore > 5 then 1 else 0))
    ∧ (((analyzeUserBehavior noFail (.ok analysis) userId st).1).threats.length
        = st.threats.length + (if analysis.threatScore > 6 then 1 else 0))
    ∧ (analysis.threatScore ≤ 5 →
        (analyzeCDRRecord noFail (.ok analysis) cdr st).1 = st
          ∧ (analyzeSMSRecord noFail (.ok analysis) sms st).1 = st)
    ∧ (analysis.threatScore ≤ 6 →
        (analyzeUserBehavior noFail (.ok analysis) userId st).1 = st) := by
  refine ⟨?_, ?_, ?_, fun hle => ⟨?_, ?_⟩, fun hle => ?_⟩
  · rw [analyzeCDRRecord, catchAll_fst, analyzeCDRRecordBody]
    by_cases h5 : analysis.threatScore > 5
    · simp only [h5, if_true, if_pos, noFail, Bool.false_eq_true, if_false,
        handleAutoResponseF_threats_length, createThreat]
      simp
    · simp [h5]
  · rw [analyzeSMSRecord, catchAll_fst, analyzeSMSRecordBody]
    by_cases h5 : analysis.threatScore > 5
    · simp only [h5, if_true, if_pos, noFail, Bool.false_eq_true, if_false,
        handleAutoResponseF_threats_length, createThreat]
      simp
    · simp [h5]
  · rw [analyzeUserBehavior, catchAll_fst, analyzeUserBehaviorBody]
    by_cases h6 : analysis.threatScore > 6
    · simp only [h6, if_true, if_pos, noFail, Bool.false_eq_true, if_false,
        handleAutoResponseF_threats_length, createThreat, createFraudCase]
      simp
    · simp [h6]
  · rw [analyzeCDRRecord, catchAll_fst, analyzeCDRRecordBody]
    simp [not_lt.mpr hle]
  · rw [analyzeSMSRecord, catchAll_fst, analyzeSMSRecordBody]
    simp [not_lt.mpr hle]
  · rw [analyzeUserBehavior, catchAll_fst, analyzeUserBehaviorBody]
    simp [not_lt.mpr hle]

/-- Witness for C1's amended theorem at a concrete below-threshold event. -/
theorem c1_threat_creation_thresholds_witness :
    ((3 : ℚ) ≤ 5)
    ∧ (analyzeCDRRecord noFail
        (.ok ⟨3, "", "", 1, "", []⟩)
        ⟨"c", "+1", "+2", 10, "voice", none, none⟩ emptyMemStorage).1
      = emptyMemStorage :=
  ⟨by norm_num,
    ((c1_threat_creation_thresholds ⟨3, "", "", 1, "", []⟩
        ⟨"c", "+1", "+2", 10, "voice", none, none⟩
        ⟨"m", "+1", "+2", "hello", "text"⟩ "u1"
        emptyMemStorage).2.2.2.1 (by norm_num)).1⟩

/-- The fixed analysis of C1's counterexample: a user-behavior event scored
5.5. -/
def c1Analysis : ThreatAnalysis :=
  { threatScore := 11 / 2, threatType := "", severity := "medium",
    confidence := 1, description := "", recommendations := [] }

/-- C1 counterexample: a user-behavior event scored 5.5 — strictly above
5.0 — creates no Threat (the user-behavior path requires score > 6.0), so
the claim's "exactly one Threat per event scored above 5.0, covering CDR,
SMS and user-behavior events alike" fails. -/
theorem c1_counterexample :
    ((11 / 2 : ℚ) > 5)
    ∧ ((analyzeUserBehavior noFail (.ok c1Analysis) "user-1"
          emptyMemStorage).1).threats = []
    ∧ (analyzeUserBehavior noFail (.ok c1Analysis) "user-1"
          emptyMemStorage).1 = emptyMemStorage := by
  refine ⟨by norm_num, ?_, ?_⟩ <;>
    · rw [analyzeUserBehavior, catchAll_fst, analyzeUserBehaviorBody]
      norm_num [c1Analysis, emptyMemStorage]

/-! ### C2 — severity classification -/

/-- C2: the severity of a created Threat is the deterministic
threshold function of its score — at least 8.5 is critical, at least 7
(and below 8.5) is high, at least 5 (and below 7) is medium, anything lower
is low, with each boundary falling into the higher tier — and every Threat
the CDR pipeline creates carries `scoresToSeverity` of its score. -/
theorem c2_severity_thresholds (s : ℚ) (analysis : ThreatAnalysis)
    (cdr : CDRRecord) (st : MemStorage) :
    ((8.5 : ℚ) ≤ s → scoresToSeverity s = "critical")
    ∧ ((7 : ℚ) ≤ s → s < 8.5 → scoresToSeverity s = "high")
    ∧ ((5 : ℚ) ≤ s → s < 7 → scoresToSeverity s = "medium")
    ∧ (s < 5 → scoresToSeverity s = "low")
    ∧ (analysis.threatScore > 5 →
        ∃ t : Threat,
          ((analyzeCDRRecord noFail (.ok analysis) cdr st).1).threats.getLast?
              = some t
            ∧ t.severity = scoresToSeverity analysis.threatScore
            ∧ t.aiScore = analysis.threatScore) := by
  refine ⟨?_, ?_, ?_, ?_, ?_⟩
  · intro h; unfold scoresToSeverity; rw [if_pos h]
  · intro h1 h2; unfold scoresToSeverity
    rw [if_neg (by linarith), if_pos h1]
  · intro h1 h2; unfold scoresToSeverity
    rw [if_neg (by linarith), if_neg (by linarith), if_pos h1]
  · intro h; unfold scoresToSeverity
    rw [if_neg (by linarith), if_neg (by linarith), if_neg (by linarith)]
  · intro h5
    rw [analyzeCDRRecord, catchAll_fst, analyzeCDRRecordBody]
    simp only [h5, if_true, noFail_failCreateThreat, Bool.false_eq_true,
      if_false]
    obtain ⟨g, hg, hfields⟩ := handleAutoResponseF_threats noFail
      (createThreat st (mkCDRInsert analysis cdr)).1
      (createThreat st (mkCDRInsert analysis cdr)).2
    refine ⟨g (createThreat st (mkCDRInsert analysis cdr)).1, ?_, ?_, ?_⟩
    · rw [hg]
      show ((st.threats ++ [(createThreat st (mkCDRInsert analysis cdr)).1]).map
        g).getLast? = _
      rw [List.map_append]
      simp
    · rw [(hfields _).1]; rfl
    · rw [(hfields _).2.1]; rfl

/-- Witness for C2 at the boundary score 8.5 and a concrete scoring event
of score 9. -/
theorem c2_severity_thresholds_witness :
    (scoresToSeverity 8.5 = "critical")
    ∧ ((9 : ℚ) > 5)
    ∧ ∃ t : Threat,
        ((analyzeCDRRecord noFail (.ok ⟨9, "", "", 1, "", []⟩)
            ⟨"c", "+1", "+2", 10, "voice", none, none⟩
            emptyMemStorage).1).threats.getLast? = some t
          ∧ t.severity = scoresToSeverity 9 ∧ t.aiScore = 9 :=
  ⟨(c2_severity_thresholds 8.5 ⟨9, "", "", 1, "", []⟩
      ⟨"c", "+1", "+2", 10, "voice", none, none⟩ emptyMemStorage).1 (by norm_num),
   by norm_num,
   (c2_severity_thresholds 9 ⟨9, "", "", 1, "", []⟩
      ⟨"c", "+1", "+2", 10, "voice", none, none⟩
      emptyMemStorage).2.2.2.2 (by norm_num)⟩

/-! ### C3 — the auto-response policy rules -/

/-- The auto-response rule of the claim, over a configuration snapshot in
which all three policy flags are present booleans: first match wins. -/
def specAutoResponse (autoBlockCritical autoBlockFraud simSwapManual : Bool)
    (threat : Threat) : Option String :=
  if threat.severity = "critical" ∧ autoBlockCritical = true then
    some (if threat.threatType = "sms_phishing" then "block_phone" else "block_ip")
  else if threat.threatType = "call_fraud" ∧ autoBlockFraud = true then
    some "block_phone"
  else if threat.threatType = "sim_swap" ∧ simSwapManual = false then
    some "create_case"
  else none

/-- Configuration rows holding the three policy flags. -/
def cfgSnapshot (autoBlockCritical autoBlockFraud simSwapManual : Bool) :
    List SystemConfig :=
  [⟨1, "auto_block_critical", .bool autoBlockCritical⟩,
   ⟨2, "auto_block_fraud", .bool autoBlockFraud⟩,
   ⟨3, "sim_swap_manual", .bool simSwapManual⟩]

/-- C3: for every Threat and every snapshot of the three policy flags, the
auto-response decision is the first-match-wins rule of the claim; on no
match the store is untouched (the Threat keeps its `analyzing` status), and
on a match exactly one automated Action of the selected type is recorded
against the Threat. -/
theorem c3_policy_first_match (b1 b2 b3 : Bool) (threat : Threat)
    (threats : List Threat) (actions : List Action) (fcs : List FraudCase)
    (cid : Nat) :
    (autoResponseDecision ⟨threats, actions, fcs, cfgSnapshot b1 b2 b3, cid⟩
          threat
        = specAutoResponse b1 b2 b3 threat)
    ∧ (specAutoResponse b1 b2 b3 threat = none →
        handleAutoResponse threat
            ⟨threats, actions, fcs, cfgSnapshot b1 b2 b3, cid⟩
          = ⟨threats, actions, fcs, cfgSnapshot b1 b2 b3, cid⟩)
    ∧ (∀ aty, specAutoResponse b1 b2 b3 threat = some aty →
        ∃ a : Action,
          (handleAutoResponse threat
              ⟨threats, actions, fcs, cfgSnapshot b1 b2 b3, cid⟩).actions
              = actions ++ [a]
            ∧ a.actionType = aty ∧ a.automated = true
            ∧ a.threatId = some threat.id) := by
  have hdec : autoResponseDecision
      ⟨threats, actions, fcs, cfgSnapshot b1 b2 b3, cid⟩ threat
      = specAutoResponse b1 b2 b3 threat := by
    unfold autoResponseDecision specAutoResponse getSystemConfig cfgSnapshot
      truthyCfg
    simp [List.find?]
  refine ⟨hdec, ?_, ?_⟩
  · intro hnone
    unfold handleAutoResponse handleAutoResponseF
    rw [hdec, hnone]
  · intro aty hsome
    unfold handleAutoResponse handleAutoResponseF
    rw [hdec, hsome]
    simp only [noFail, Bool.false_eq_true, if_false, createAction,
      updateThreatStatus]
    exact ⟨_, rfl, rfl, rfl, rfl⟩

/-- Witness for C3 at a concrete critical sms-phishing Threat with
`auto_block_critical` set. -/
theorem c3_policy_first_match_witness :
    specAutoResponse true false false
        ⟨7, "sms_phishing", "+1", "critical", 9, "analyzing", ""⟩
      = some "block_phone"
    ∧ ∃ a : Action,
        (handleAutoResponse
            ⟨7, "sms_phishing", "+1", "critical", 9, "analyzing", ""⟩
            ⟨[], [], [], cfgSnapshot true false false, 8⟩).actions
          = [] ++ [a]
        ∧ a.actionType = "block_phone" ∧ a.automated = true
        ∧ a.threatId = some 7 :=
  ⟨rfl,
    (c3_policy_first_match true false false
        ⟨7, "sms_phishing", "+1", "critical", 9, "analyzing", ""⟩
        [] [] [] 8).2.2 "block_phone" rfl⟩

/-! ### C4 — policy evaluation is not idempotent -/

/-- The scoring result of C4's counterexample run: a call-fraud event
scored 7.5. -/
def c4Analysis : ThreatAnalysis :=
  { threatScore := 7.5, threatType := "call_fraud", severity := "high",
    confidence := 1, description := "", recommendations := [] }

/-- The CDR record of C4's counterexample run. -/
def c4CDR : CDRRecord :=
  { callId := "c1", fromNumber := "+15550001", toNumber := "+15550002",
    duration := 60, callType := "voice", location := none, imei := none }

/-- The store after the counterexample event went through the pipeline
(default configuration: `auto_block_fraud` is true). -/
def c4State1 : MemStorage :=
  (analyzeCDRRecord noFail (.ok c4Analysis) c4CDR emptyMemStorage).1

/-- The Threat as stored after that run: status `blocked`. -/
def c4Threat : Threat :=
  (getThreatById c4State1 1).getD ⟨0, "", "", "", 0, "", ""⟩

/-- C4 counterexample: after the first policy evaluation the Threat is
`blocked` with exactly one Action; re-running policy evaluation on that
already-blocked Threat creates a second Action instead of being a no-op, so
two invocations do not produce exactly one Action. -/
theorem c4_counterexample :
    c4State1.actions.length = 1
    ∧ c4Threat.status = "blocked"
    ∧ (handleAutoResponse c4Threat c4State1).actions.length = 2 := by
  have h1 : ((7.5 : ℚ) > 5) := by norm_num
  have hsev : scoresToSeverity (7.5 : ℚ) = "high" := by
    norm_num [scoresToSeverity]
  refine ⟨?_, ?_, ?_⟩ <;>
    simp [c4State1, c4Threat, c4Analysis, c4CDR, analyzeCDRRecord,
      analyzeCDRRecordBody, catchAll, emptyMemStorage, initialSystemConfig,
      createThreat, mkCDRInsert, jsOrString, noFail, handleAutoResponse,
      handleAutoResponseF, autoResponseDecision, getSystemConfig,
      getThreatById, truthyCfg, createAction, updateThreatStatus,
      List.find?, h1, hsev]

/-- C4 (amended): policy evaluation never inspects the Threat's status — on
any Threat whose attributes match a rule, each invocation appends one more
automated Action, so two invocations produce two Actions (the status does
end at `blocked` both times). -/
theorem c4_policy_not_idempotent (threat : Threat) (st : MemStorage)
    (aty : String) (h : autoResponseDecision st threat = some aty) :
    (handleAutoResponse threat (handleAutoResponse threat st)).actions.length
      = st.actions.length + 2 := by
  have hcfg : (handleAutoResponse threat st).systemConfig = st.systemConfig :=
    handleAutoResponseF_systemConfig noFail threat st
  have h2 : autoResponseDecision (handleAutoResponse threat st) threat
      = some aty := by
    rw [autoResponseDecision_congr threat hcfg, h]
  have step : ∀ st' : MemStorage,
      autoResponseDecision st' threat = some aty →
      (handleAutoResponse threat st').actions.length
        = st'.actions.length + 1 := by
    intro st' h'
    unfold handleAutoResponse handleAutoResponseF
    rw [h']
    simp [noFail, createAction, updateThreatStatus]
  rw [step _ h2, step _ h]

/-- Witness for C4's amended theorem at the concrete blocked Threat of the
counterexample run. -/
theorem c4_policy_not_idempotent_witness :
    autoResponseDecision c4State1 c4Threat = some "block_phone"
    ∧ (handleAutoResponse c4Threat
          (handleAutoResponse c4Threat c4State1)).actions.length
        = c4State1.actions.length + 2 := by
  have h1 : ((7.5 : ℚ) > 5) := by norm_num
  have hsev : scoresToSeverity (7.5 : ℚ) = "high" := by
    norm_num [scoresToSeverity]
  have h : autoResponseDecision c4State1 c4Threat = some "block_phone" := by
    simp [c4State1, c4Threat, c4Analysis, c4CDR, analyzeCDRRecord,
      analyzeCDRRecordBody, catchAll, emptyMemStorage, initialSystemConfig,
      createThreat, mkCDRInsert, jsOrString, noFail, handleAutoResponse,
      handleAutoResponseF, autoResponseDecision, getSystemConfig,
      getThreatById, truthyCfg, createAction, updateThreatStatus,
      List.find?, h1, hsev]
  exact ⟨h, c4_policy_not_idempotent c4Threat c4State1 "block_phone" h⟩

/-! ### C5 — missing configuration is not fail-safe -/

/-- The sim-swap Threat of C5's counterexample. -/
def c5Threat : Threat :=
  { id := 1, threatType := "sim_swap", source := "User: u9",
    severity := "medium", aiScore := 13 / 2, status := "analyzing",
    description := "" }

/-- A store whose configuration table is empty: every config read returns
no value. -/
def c5State : MemStorage :=
  { threats := [c5Threat], actions := [], fraudCases := [],
    systemConfig := [], currentId := 2 }

/-- C5 counterexample: with no configuration rows at all — every policy-flag
read returns no value — a sim_swap Threat still triggers an automated
`create_case` Action, because the absent `sim_swap_manual` flag is treated
as false; the claim's "no automated Action is created when the
configuration is unavailable" fails. -/
theorem c5_counterexample :
    getSystemConfig c5State "auto_block_critical" = none
    ∧ getSystemConfig c5State "auto_block_fraud" = none
    ∧ getSystemConfig c5State "sim_swap_manual" = none
    ∧ (handleAutoResponse c5Threat c5State).actions.map Action.actionType
        = ["create_case"]
    ∧ (handleAutoResponse c5Threat c5State).actions.map Action.automated
        = [true] := by
  refine ⟨rfl, rfl, rfl, ?_, ?_⟩ <;>
    norm_num [c5State, c5Threat, handleAutoResponse, handleAutoResponseF,
      autoResponseDecision, getSystemConfig, truthyCfg, noFail, createAction,
      updateThreatStatus, List.find?]

/-- C5 (amended): when all three policy-flag reads return no value, the
critical and call-fraud rules cannot fire (a missing flag is falsy), but
the sim-swap rule treats the missing `sim_swap_manual` flag as false and
fires: a sim_swap Threat gets an automated `create_case` Action, every
other Threat gets none and the store is untouched. -/
theorem c5_missing_config_fails_open (threat : Threat) (st : MemStorage)
    (h1 : getSystemConfig st "auto_block_critical" = none)
    (h2 : getSystemConfig st "auto_block_fraud" = none)
    (h3 : getSystemConfig st "sim_swap_manual" = none) :
    autoResponseDecision st threat
      = (if threat.threatType = "sim_swap" then some "create_case" else none)
    ∧ (threat.threatType ≠ "sim_swap" →
        handleAutoResponse threat st = st) := by
  have hdec : autoResponseDecision st threat
      = (if threat.threatType = "sim_swap" then some "create_case" else none) := by
    unfold autoResponseDecision
    rw [h1, h2, h3]
    simp [truthyCfg]
  refine ⟨hdec, fun hne => ?_⟩
  unfold handleAutoResponse handleAutoResponseF
  rw [hdec, if_neg hne]

/-- Witness for C5's amended theorem at the concrete empty-config store. -/
theorem c5_missing_config_fails_open_witness :
    autoResponseDecision c5State c5Threat
      = (if c5Threat.threatType = "sim_swap" then some "create_case" else none) :=
  (c5_missing_config_fails_open c5Threat c5State rfl rfl rfl).1

/-! ### C6 — the Score Provider is total toward its caller -/

/-- C6: whatever the external service does — throws, returns an empty body,
or returns a parsed result — `analyzeThreatData` resolves with a
`ThreatAnalysis` and never propagates an exception to the orchestrator; on
a thrown transport/parse error it falls back to a freshly generated
heuristic analysis, on an empty response (or when the external call is not
sampled) to the heuristic analysis computed up front. -/
theorem c6_score_provider_total (useGemini : Bool) (svc : GeminiOutcome)
    (data : FallbackData) (analysisType : String) (r0 r1 rc s0 s1 sc : ℚ) :
    (∃ a : ThreatAnalysis,
      analyzeThreatData useGemini svc data analysisType r0 r1 rc s0 s1 sc
        = .ok a)
    ∧ (svc = .throwErr → useGemini = true →
        analyzeThreatData useGemini svc data analysisType r0 r1 rc s0 s1 sc
          = .ok (generateFallbackAnalysis data analysisType s0 s1 sc))
    ∧ (svc = .emptyBody →
        analyzeThreatData useGemini svc data analysisType r0 r1 rc s0 s1 sc
          = .ok (generateFallbackAnalysis data analysisType r0 r1 rc))
    ∧ (useGemini = false →
        analyzeThreatData useGemini svc data analysisType r0 r1 rc s0 s1 sc
          = .ok (generateFallbackAnalysis data analysisType r0 r1 rc)) := by
  unfold analyzeThreatData analyzeThreatDataTry
  cases useGemini <;> cases svc <;> simp

/-- Witness for C6: a thrown external call on the sampled path resolves
with the catch path's fallback analysis. -/
theorem c6_score_provider_total_witness :
    analyzeThreatData true .throwErr ⟨none, none, none, none⟩ "sms"
        0 0 0 0 0 0
      = .ok (generateFallbackAnalysis ⟨none, none, none, none⟩ "sms" 0 0 0) :=
  (c6_score_provider_total true .throwErr ⟨none, none, none, none⟩ "sms"
      0 0 0 0 0 0).2.1 rfl rfl

/-! ### C7 — keyword SMS events and the dropped analysisType argument

`generateFallbackAnalysis` has a dedicated `analysisType === "sms"` branch
that scores keyword-bearing message bodies into `[7, 10]` as
`sms_phishing`, but the pipeline never reaches it: `analyzeSMSRecord`
(threatAnalysis.ts line 54) invokes `analyzeThreatData(JSON.stringify(sms))`
with a single argument, although gemini.ts line 14 declares
`analyzeThreatData(data, analysisType)`.  At run time `analysisType` is
undefined — it matches none of "sms"/"cdr"/"user_behavior" — and `data` is
the JSON string, whose `.message` field is undefined, so the heuristic
falls to its base case: a uniform `r·10` score classified
`anomalous_traffic`. -/

/-- The branch the source dedicates to SMS events: a message body
containing the indicator keyword "click" or "urgent" (case-insensitively)
is scored at `7 + r·3` for a draw `r ∈ [0,1)` — hence within `[7, 10]` —
and classified `sms_phishing`, when `generateFallbackAnalysis` is invoked
with `analysisType` "sms" and the record's fields. -/
theorem generateFallbackAnalysis_sms_keyword (data : FallbackData)
    (r0 r1 rc : ℚ)
    (hkw : lowerIncludes (data.message.getD "") "click" = true
        ∨ lowerIncludes (data.message.getD "") "urgent" = true)
    (h0 : 0 ≤ r1) (h1 : r1 < 1) :
    7 ≤ (generateFallbackAnalysis data "sms" r0 r1 rc).threatScore
    ∧ (generateFallbackAnalysis data "sms" r0 r1 rc).threatScore ≤ 10
    ∧ (generateFallbackAnalysis data "sms" r0 r1 rc).threatType
        = "sms_phishing" := by
  have hcond : (lowerIncludes (data.message.getD "") "click"
      || lowerIncludes (data.message.getD "") "urgent") = true := by
    rcases hkw with h | h <;> simp [h]
  unfold generateFallbackAnalysis
  simp [hcond]
  refine ⟨by linarith, by linarith⟩

/-- The SMS body of the spec's end-to-end scenario, as the heuristic's
`sms` branch would receive it. -/
def c7Data : FallbackData :=
  { message := some "URGENT click here to verify your account",
    duration := none, activities := none, source := none }

/-- The SMS record of the spec's end-to-end scenario. -/
def c7SMS : SMSRecord :=
  { messageId := "m1", fromNumber := "+15550001", toNumber := "+15550002",
    message := "URGENT click here to verify your account",
    messageType := "text" }

/-- What the SMS pipeline's actual single-argument call makes the fallback
heuristic compute (threatAnalysis.ts line 54 passes `JSON.stringify(sms)`
and no `analysisType`): the undefined `analysisType` matches none of the
three branch labels — modelled by the empty string, which equals none of
them either — and the stringified record has no `.message`, `.duration`,
`.activities` or `.source` field. -/
def smsPathFallback (r0 r1 rc : ℚ) : ThreatAnalysis :=
  generateFallbackAnalysis ⟨none, none, none, none⟩ "" r0 r1 rc

/-- C7: the claim states the heuristic's own design — and the source's
`sms` branch does implement it — but the code's SMS path drops the
`analysisType` argument and stringifies the record, so the branch is
unreachable: evaluated at the scenario message with draw 1/5, the actual
path scores the keyword SMS at `r·10 = 2` as `anomalous_traffic` (here
creating no Threat at all), while the same heuristic invoked as declared
scores it `17/2 ∈ [7,10]` as `sms_phishing`. -/
theorem c7_sms_path_drops_keyword_branch :
    (smsPathFallback (1 / 5) (1 / 2) 0).threatType = "anomalous_traffic"
    ∧ (smsPathFallback (1 / 5) (1 / 2) 0).threatScore = 2
    ∧ (analyzeSMSRecord noFail (.ok (smsPathFallback (1 / 5) (1 / 2) 0))
          c7SMS emptyMemStorage).1 = emptyMemStorage
    ∧ (generateFallbackAnalysis c7Data "sms" (1 / 5) (1 / 2) 0).threatType
        = "sms_phishing"
    ∧ (generateFallbackAnalysis c7Data "sms" (1 / 5) (1 / 2) 0).threatScore
        = 17 / 2 := by
  have hns : ¬("" = "sms") := by decide
  have hnc : ¬("" = "cdr") := by decide
  have hnu : ¬("" = "user_behavior") := by decide
  have hty : (smsPathFallback (1 / 5) (1 / 2) 0).threatType
      = "anomalous_traffic" := by
    norm_num [smsPathFallback, generateFallbackAnalysis, hns, hnc, hnu]
  have hscore : (smsPathFallback (1 / 5) (1 / 2) 0).threatScore = 2 := by
    norm_num [smsPathFallback, generateFallbackAnalysis, hns, hnc, hnu]
  have hkw : (lowerIncludes "URGENT click here to verify your account" "click"
      || lowerIncludes "URGENT click here to verify your account" "urgent")
      = true := rfl
  refine ⟨hty, hscore, ?_, ?_, ?_⟩
  · rw [analyzeSMSRecord, catchAll_fst, analyzeSMSRecordBody]
    norm_num [hscore]
  · norm_num [c7Data, generateFallbackAnalysis, hkw]
  · norm_num [c7Data, generateFallbackAnalysis, hkw]

/-! ### C10 — the pipeline entry points never reject -/

/-- C10: the three pipeline entry points always resolve: whatever the
scoring promise did and whichever storage write is made to fail, the body's
error is caught (and only logged), the state reached so far stands, and the
caller receives a normal completion — never a rejection. -/
theorem c10_entry_points_never_reject (fs : FailSpec)
    (scoring : Except Unit ThreatAnalysis) (cdr : CDRRecord)
    (sms : SMSRecord) (userId : String) (st : MemStorage) :
    ((analyzeCDRRecord fs scoring cdr st).2 = Except.ok ()
      ∧ (analyzeCDRRecord fs scoring cdr st).1
          = (analyzeCDRRecordBody fs scoring cdr st).1)
    ∧ ((analyzeSMSRecord fs scoring sms st).2 = Except.ok ()
      ∧ (analyzeSMSRecord fs scoring sms st).1
          = (analyzeSMSRecordBody fs scoring sms st).1)
    ∧ ((analyzeUserBehavior fs scoring userId st).2 = Except.ok ()
      ∧ (analyzeUserBehavior fs scoring userId st).1
          = (analyzeUserBehaviorBody fs scoring userId st).1) :=
  ⟨⟨catchAll_snd _, catchAll_fst _⟩, ⟨catchAll_snd _, catchAll_fst _⟩,
    ⟨catchAll_snd _, catchAll_fst _⟩⟩

/-! ### Lemmas relating the squared comparisons to the source's
square-root form -/

/-- The embedded flag condition `(d − μ)² > 4·σ²` is the source's
`|d − μ| > 2·√(σ²)`. -/
theorem sq_gt_four_iff_abs_gt_two_sqrt (d v : ℚ) (hv : 0 ≤ v) :
    d ^ 2 > 4 * v ↔ |(d : ℝ)| > 2 * Real.sqrt (v : ℝ) := by
  have hv' : (0 : ℝ) ≤ (v : ℝ) := by exact_mod_cast hv
  have key : (d : ℝ) ^ 2 > 4 * (v : ℝ) ↔ |(d : ℝ)| > 2 * Real.sqrt (v : ℝ) := by
    rw [show (2 : ℝ) * Real.sqrt (v : ℝ) = Real.sqrt (4 * v) by
      rw [show (4 : ℝ) * v = 2 ^ 2 * v by ring, Real.sqrt_mul (by positivity),
        Real.sqrt_sq (by norm_num)]]
    rw [show |(d : ℝ)| = Real.sqrt (d ^ 2) by
      rw [Real.sqrt_sq_eq_abs]]
    constructor
    · intro h
      exact Real.sqrt_lt_sqrt (by positivity) (by linarith)
    · intro h
      by_contra hc
      push_neg at hc
      exact absurd (Real.sqrt_le_sqrt hc) (not_le.mpr h)
  constructor
  · intro h
    exact key.mp (by exact_mod_cast h)
  · intro h
    exact_mod_cast key.mpr h

/-- The embedded severity condition `(d − μ)² > 9·σ²` is the source's
`|d − μ| > 3·√(σ²)`. -/
theorem sq_gt_nine_iff_abs_gt_three_sqrt (d v : ℚ) (hv : 0 ≤ v) :
    d ^ 2 > 9 * v ↔ |(d : ℝ)| > 3 * Real.sqrt (v : ℝ) := by
  have hv' : (0 : ℝ) ≤ (v : ℝ) := by exact_mod_cast hv
  have key : (d : ℝ) ^ 2 > 9 * (v : ℝ) ↔ |(d : ℝ)| > 3 * Real.sqrt (v : ℝ) := by
    rw [show (3 : ℝ) * Real.sqrt (v : ℝ) = Real.sqrt (9 * v) by
      rw [show (9 : ℝ) * v = 3 ^ 2 * v by ring, Real.sqrt_mul (by positivity),
        Real.sqrt_sq (by norm_num)]]
    rw [show |(d : ℝ)| = Real.sqrt (d ^ 2) by rw [Real.sqrt_sq_eq_abs]]
    constructor
    · intro h
      exact Real.sqrt_lt_sqrt (by positivity) (by linarith)
    · intro h
      by_contra hc
      push_neg at hc
      exact absurd (Real.sqrt_le_sqrt hc) (not_le.mpr h)
  constructor
  · intro h
    exact key.mp (by exact_mod_cast h)
  · intro h
    exact_mod_cast key.mpr h

/-- The squared score carried in `Anomaly.scoreSq` is the square of the
source's `min(10, |d − μ| / √(σ²))` whenever the variance is positive. -/
theorem scoreSq_is_source_score_squared (d v : ℚ) (hv : 0 < v) :
    ((min 100 (d ^ 2 / v) : ℚ) : ℝ)
      = (min 10 (|(d : ℝ)| / Real.sqrt (v : ℝ))) ^ 2 := by
  have hv' : (0 : ℝ) < (v : ℝ) := by exact_mod_cast hv
  have hs : (0 : ℝ) < Real.sqrt (v : ℝ) := Real.sqrt_pos.mpr hv'
  have hx : (0 : ℝ) ≤ |(d : ℝ)| / Real.sqrt (v : ℝ) := by positivity
  have hsq : (|(d : ℝ)| / Real.sqrt (v : ℝ)) ^ 2 = (d : ℝ) ^ 2 / (v : ℝ) := by
    rw [div_pow, sq_abs, Real.sq_sqrt hv'.le]
  rcases le_total (|(d : ℝ)| / Real.sqrt (v : ℝ)) 10 with h | h
  · have h2 : (d : ℝ) ^ 2 / (v : ℝ) ≤ 100 := by
      rw [← hsq]
      nlinarith
    rw [min_eq_right h, hsq]
    push_cast
    rw [min_eq_right (by exact_mod_cast h2)]
  · have h2 : (100 : ℝ) ≤ (d : ℝ) ^ 2 / (v : ℝ) := by
      rw [← hsq]
      nlinarith
    rw [min_eq_left h]
    push_cast
    rw [min_eq_left (by exact_mod_cast h2)]
    norm_num

/-! ### Structure of the two statistical passes -/

/-- Every finding of the duration pass is a `call_duration_outlier` with
confidence 0.85 and severity high or medium — never critical. -/
theorem mem_durationOutlierPass (acts : List TelecomActivity) (a : Anomaly)
    (ha : a ∈ durationOutlierPass acts) :
    a.anomalyType = "call_duration_outlier" ∧ a.confidence = 0.85
      ∧ (a.severity = "high" ∨ a.severity = "medium") := by
  unfold durationOutlierPass at ha
  split at ha
  · obtain ⟨p, hp, rfl⟩ := List.mem_map.mp ha
    refine ⟨rfl, rfl, ?_⟩
    unfold mkDurationAnomaly
    by_cases hs : (p.2.durationSec - meanOf (callDurations acts)) ^ 2
        > 9 * varianceOf (callDurations acts)
    · left; simp [hs]
    · right; simp [hs]
  · simp at ha

/-- Every finding of the location pass is a `location_activity_spike` with
confidence 0.75 and severity critical or high. -/
theorem mem_locationPass (now : Nat) (acts : List TelecomActivity)
    (a : Anomaly) (ha : a ∈ locationPass now acts) :
    a.anomalyType = "location_activity_spike" ∧ a.confidence = 0.75
      ∧ (a.severity = "critical" ∨ a.severity = "high") := by
  unfold locationPass at ha
  split at ha
  · obtain ⟨p, hp, rfl⟩ := List.mem_map.mp ha
    refine ⟨rfl, rfl, ?_⟩
    unfold mkLocationAnomaly
    by_cases hs : (p.2 : ℚ) > avgLocationFreq acts * 5
    · left; simp [hs]
    · right; simp [hs]
  · simp at ha

/-- On a batch with at least one positive-duration call, the duration pass
reports one finding per flagged record — all of them, with no cap. -/
theorem durationOutlierPass_length (acts : List TelecomActivity)
    (h : (callDurations acts).length > 0) :
    (durationOutlierPass acts).length
      = (acts.filter (durationFlag acts)).length := by
  unfold durationOutlierPass
  rw [if_pos h, List.length_map, List.enum_length]

/-! ### C8 — the duration-outlier pass as implemented -/

/-- C8 (amended): for a batch of at least 50 records with at least one
positive-duration call record, the duration-outlier pass reports every
call-type record whose duration deviates from the batch mean by more than
two population standard deviations — all of them, with no cap of 5 — and
each reported outlier has confidence fixed at 0.85 and severity high when
the deviation exceeds three standard deviations, medium otherwise; the
severity critical is never assigned. -/
theorem c8_duration_outliers_no_critical_no_cap (now : Nat)
    (acts : List TelecomActivity) (h50 : ¬ acts.length < 50)
    (hcd : (callDurations acts).length > 0) :
    ((getStatisticalAnomalies now acts).filter
        (fun a => decide (a.anomalyType = "call_duration_outlier"))).length
      = (acts.filter (durationFlag acts)).length
    ∧ ∀ a ∈ getStatisticalAnomalies now acts,
        a.anomalyType = "call_duration_outlier" →
          a.confidence = 0.85 ∧ a.severity ≠ "critical"
            ∧ (a.severity = "high" ∨ a.severity = "medium") := by
  constructor
  · unfold getStatisticalAnomalies
    rw [if_neg h50, List.filter_append]
    have hdur : (durationOutlierPass acts).filter
        (fun a => decide (a.anomalyType = "call_duration_outlier"))
        = durationOutlierPass acts := by
      rw [List.filter_eq_self]
      intro a ha
      simp [(mem_durationOutlierPass acts a ha).1]
    have hloc : (locationPass now acts).filter
        (fun a => decide (a.anomalyType = "call_duration_outlier")) = [] := by
      rw [List.filter_eq_nil_iff]
      intro a ha
      simp [(mem_locationPass now acts a ha).1]
    rw [hdur, hloc, List.append_nil, durationOutlierPass_length acts hcd]
  · intro a ha hty
    unfold getStatisticalAnomalies at ha
    rw [if_neg h50] at ha
    rcases List.mem_append.mp ha with h | h
    · obtain ⟨-, hconf, hsev⟩ := mem_durationOutlierPass acts a h
      refine ⟨hconf, ?_, hsev⟩
      rcases hsev with h' | h' <;> simp [h']
    · have := (mem_locationPass now acts a h).1
      rw [this] at hty
      simp at hty

/-- The batch of C8's concrete runs: 49 ten-second calls and one
1010-second call, all at one location. -/
def c8Act (d : ℚ) : TelecomActivity :=
  { id := 0, userId := "u1", activityType := "call", durationSec := d,
    location := "LOC", peerNumber := "+1555", timestamp := 0,
    isSpamOrFraud := false }

/-- C8's counterexample batch. -/
def c8Batch : List TelecomActivity :=
  List.replicate 49 (c8Act 10) ++ [c8Act 1010]

/-- The call durations of the C8 batch. -/
theorem c8_callDurations :
    callDurations c8Batch = List.replicate 49 (10 : ℚ) ++ [1010] := by
  unfold callDurations c8Batch c8Act
  rw [List.filter_append, List.filter_replicate]
  norm_num

/-- Mean of the C8 batch durations. -/
theorem c8_mean : meanOf (callDurations c8Batch) = 30 := by
  rw [c8_callDurations]
  unfold meanOf
  rw [List.sum_append, List.sum_replicate]
  norm_num

/-- Population variance of the C8 batch durations. -/
theorem c8_variance : varianceOf (callDurations c8Batch) = 19600 := by
  unfold varianceOf
  rw [c8_mean, c8_callDurations, List.map_append, List.map_replicate,
    List.sum_append, List.sum_replicate]
  norm_num

/-- C8 counterexample: on a 50-record batch whose single outlier lies seven
standard deviations out (|z| = 7 > 3), the detector reports it with
severity high — not critical — and with confidence 0.85 — not the claimed
`min(0.95, 0.6 + (|z| − 2)·0.1) = 0.95`. -/
theorem c8_counterexample :
    c8Batch.length = 50
    ∧ ((1010 : ℚ) - meanOf (callDurations c8Batch)) ^ 2
        > 9 * varianceOf (callDurations c8Batch)
    ∧ (getStatisticalAnomalies 0 c8Batch).map
        (fun a => (a.anomalyType, a.severity, a.confidence))
        = [("call_duration_outlier", "high", 0.85)]
    ∧ ((0.85 : ℚ) ≠ min 0.95 (0.6 + (7 - 2) * 0.1)) := by
  have hlen : c8Batch.length = 50 := by
    unfold c8Batch
    simp
  have hflag10 : durationFlag c8Batch (c8Act 10) = false := by
    unfold durationFlag
    rw [c8_mean, c8_variance]
    norm_num [c8Act]
  have hflag1010 : durationFlag c8Batch (c8Act 1010) = true := by
    unfold durationFlag
    rw [c8_mean, c8_variance]
    norm_num [c8Act]
  have hpos : (callDurations c8Batch).length > 0 := by
    rw [c8_callDurations]
    simp
  have hfilter : c8Batch.filter (durationFlag c8Batch)
      = [c8Act 1010] := by
    set p := durationFlag c8Batch with hp
    conv_lhs => rw [c8Batch]
    rw [List.filter_append, List.filter_replicate, hflag10]
    simp [hflag1010]
  have hloc : locationPass 0 c8Batch = [] := by
    have hcounts : locationCounts c8Batch = [("LOC", 50)] := by
      unfold locationCounts
      have hmap : c8Batch.map (fun a => a.location)
          = List.replicate 50 "LOC" := by
        unfold c8Batch c8Act
        rw [List.map_append, List.map_replicate]
        rfl
      rw [hmap, show (50 : Nat) = 49 + 1 from rfl, List.replicate_succ,
        uniqueKeys]
      rw [List.filter_replicate]
      norm_num [uniqueKeys, c8Batch, c8Act, List.filter_append,
        List.filter_replicate, hlen]
    unfold locationPass
    rw [hcounts]
    norm_num
  have hdur : durationOutlierPass c8Batch
      = [mkDurationAnomaly (meanOf (callDurations c8Batch))
          (varianceOf (callDurations c8Batch)) (0, c8Act 1010)] := by
    unfold durationOutlierPass
    rw [if_pos hpos, hfilter]
    rfl
  refine ⟨hlen, ?_, ?_, by norm_num⟩
  · rw [c8_mean, c8_variance]
    norm_num
  · unfold getStatisticalAnomalies
    rw [if_neg (by rw [hlen]; norm_num), hdur, hloc, List.append_nil]
    unfold mkDurationAnomaly
    rw [c8_mean, c8_variance]
    norm_num [c8Act]

/-- Witness for C8's amended theorem at the concrete 50-record batch. -/
theorem c8_duration_outliers_no_critical_no_cap_witness :
    ((getStatisticalAnomalies 0 c8Batch).filter
        (fun a => decide (a.anomalyType = "call_duration_outlier"))).length
      = (c8Batch.filter (durationFlag c8Batch)).length := by
  have h50 : ¬ c8Batch.length < 50 := by
    have : c8Batch.length = 50 := by
      unfold c8Batch
      simp
    rw [this]
    norm_num
  have hcd : (callDurations c8Batch).length > 0 := by
    rw [c8_callDurations]
    simp
  exact (c8_duration_outliers_no_critical_no_cap 0 c8Batch h50 hcd).1

/-! ### C9 — there is no fraud-rate-spike pass -/

/-- C9 (amended): the statistical pass never emits a fraud-rate anomaly on
any batch: every finding it returns is a call-duration outlier or a
location-activity spike, so filtering its output for `fraud_rate_spike`
findings always yields the empty sequence. -/
theorem c9_no_fraud_rate_spike (now : Nat) (acts : List TelecomActivity) :
    (getStatisticalAnomalies now acts).filter
        (fun a => decide (a.anomalyType = "fraud_rate_spike")) = [] := by
  rw [List.filter_eq_nil_iff]
  intro a ha
  unfold getStatisticalAnomalies at ha
  split at ha
  · simp at ha
  · rcases List.mem_append.mp ha with h | h
    · simp [(mem_durationOutlierPass acts a h).1]
    · simp [(mem_locationPass now acts a h).1]

/-- One record of C9's counterexample batch. -/
def c9Act (fraud : Bool) : TelecomActivity :=
  { id := 0, userId := "u1", activityType := "call", durationSec := 60,
    location := "LOC", peerNumber := "+1555", timestamp := 0,
    isSpamOrFraud := fraud }

/-- C9's counterexample batch: 100 records, exactly 15 fraud-flagged. -/
def c9Batch : List TelecomActivity :=
  List.replicate 85 (c9Act false) ++ List.replicate 15 (c9Act true)

/-- C9 counterexample: a batch of 100 activity records with exactly 15
fraud-flagged (rate 0.15 > 0.10) yields no anomaly at all — in particular
no `fraud_rate_spike` of severity high, as the claim requires. -/
theorem c9_counterexample :
    c9Batch.length = 100
    ∧ (c9Batch.filter (fun a => a.isSpamOrFraud)).length = 15
    ∧ getStatisticalAnomalies 0 c9Batch = [] := by
  have hlen : c9Batch.length = 100 := by
    unfold c9Batch
    rw [List.length_append, List.length_replicate, List.length_replicate]
  have hcd : callDurations c9Batch = List.replicate 100 (60 : ℚ) := by
    unfold callDurations c9Batch c9Act
    rw [List.filter_append, List.filter_replicate, List.filter_replicate]
    norm_num [List.map_append, List.map_replicate,
      List.append_replicate_replicate]
  have hmean : meanOf (callDurations c9Batch) = 60 := by
    rw [hcd]
    unfold meanOf
    rw [List.sum_replicate]
    norm_num
  have hvar : varianceOf (callDurations c9Batch) = 0 := by
    unfold varianceOf
    rw [hmean, hcd, List.map_replicate, List.sum_replicate]
    norm_num
  have hflag : ∀ b : Bool, durationFlag c9Batch (c9Act b) = false := by
    intro b
    unfold durationFlag
    rw [hmean, hvar]
    norm_num [c9Act]
  have hdur : durationOutlierPass c9Batch = [] := by
    have hpos : (callDurations c9Batch).length > 0 := by
      rw [hcd]
      simp
    have hnil : c9Batch.filter (durationFlag c9Batch) = [] := by
      set p := durationFlag c9Batch with hp
      conv_lhs => rw [c9Batch]
      rw [List.filter_append, List.filter_replicate, List.filter_replicate,
        hflag false, hflag true]
      simp
    unfold durationOutlierPass
    rw [if_pos hpos, hnil]
    rfl
  have hloc : locationPass 0 c9Batch = [] := by
    have hcounts : locationCounts c9Batch = [("LOC", 100)] := by
      unfold locationCounts
      have hmap : c9Batch.map (fun a => a.location)
          = List.replicate 100 "LOC" := by
        unfold c9Batch c9Act
        rw [List.map_append, List.map_replicate, List.map_replicate,
          List.append_replicate_replicate]
      rw [hmap, show (100 : Nat) = 99 + 1 from rfl, List.replicate_succ,
        uniqueKeys]
      rw [List.filter_replicate]
      norm_num [uniqueKeys, c9Batch, c9Act, List.filter_append,
        List.filter_replicate, hlen]
    unfold locationPass
    rw [hcounts]
    norm_num
  refine ⟨hlen, ?_, ?_⟩
  · unfold c9Batch c9Act
    rw [List.filter_append, List.filter_replicate, List.filter_replicate]
    simp
  · unfold getStatisticalAnomalies
    rw [if_neg (by rw [hlen]; norm_num), hdur, hloc]
    rfl

end TelecomSoc
